import Mathlib

/-!
Verification development for the couch-kit local party-game framework:
the host-side session/state engine (`packages/host/src/provider.tsx`),
the wrapped game reducer (`packages/core/src/types.ts`), the secret and
player-id helpers (`packages/core/src/constants.ts`), the per-connection
growing buffer (`packages/host/src/buffer-utils.ts`), and the handcrafted
WebSocket frame codec and send path (`GameWebSocketServer`).

JavaScript runtime values are modelled by the inductive type `JValue`;
JS objects are association lists of string keys in insertion order (the
keys used by this code base are never array indices, so insertion order
is the JS enumeration order).  Machine integers do not occur: JS lengths
and byte values are modelled as `Nat`, timestamps as `Int`.
-/

namespace CouchKit

/-- Lookup of the value stored under key `k` in a JS object modelled as an
association list (JS objects have unique keys; lookup returns the first hit). -/
def lookupKey {α : Type} (k : String) : List (String × α) → Option α
  | [] => none
  | (k₁, v) :: rest => if k₁ = k then some v else lookupKey k rest

/-- JS property write / object-literal override `{...l, [k]: v}` restricted to
an existing list: replace the value in place if the key is present (JS keeps
the original insertion position), otherwise append the new key at the end. -/
def setKey {α : Type} (k : String) (v : α) : List (String × α) → List (String × α)
  | [] => [(k, v)]
  | (k₁, v₁) :: rest => if k₁ = k then (k, v) :: rest else (k₁, v₁) :: setKey k v rest

/-- JS rest-destructuring `const { [k]: _, ...rest } = o`: drop the entries
whose key is `k` (JS objects hold at most one). -/
def removeKey {α : Type} (k : String) : List (String × α) → List (String × α)
  | [] => []
  | (k₁, v₁) :: rest => if k₁ = k then removeKey k rest else (k₁, v₁) :: removeKey k rest

/-- JS object-literal spread `{...base, ...extra}`: later entries override
earlier ones in place, new keys are appended in order. -/
def spreadInto {α : Type} (base : List (String × α)) (extra : List (String × α)) :
    List (String × α) :=
  extra.foldl (fun acc kv => setKey kv.1 kv.2 acc) base

/-- A JavaScript runtime value, as far as the couch-kit wire and state code
observes it.  Numbers are modelled as integers: every number the engine
compares or stores here is an integer timestamp or count, and no claim
depends on float behaviour. -/
inductive JValue : Type where
  | jsUndefined : JValue
  | null : JValue
  | bool (b : Bool) : JValue
  | num (n : Int) : JValue
  | str (s : String) : JValue
  | arr (elems : List JValue) : JValue
  | obj (fields : List (String × JValue)) : JValue

/-- JS truthiness test, as used by `if (!x)` guards in the source. -/
def jtruthy : JValue → Bool
  | .jsUndefined => false
  | .null => false
  | .bool b => b
  | .num n => n != 0
  | .str s => s ≠ ""
  | .arr _ => true
  | .obj _ => true

/-- JS property read `v[k]` as it behaves on the values this code reads:
a missing key and a read on a non-object both yield `undefined`.
(Index and `length` properties of arrays and strings are not modelled;
the engine never reads named properties off arrays or strings.) -/
def jget : JValue → String → JValue
  | .obj fields, k =>
    match lookupKey k fields with
    | some v => v
    | none => .jsUndefined
  | _, _ => .jsUndefined

/-- The entries contributed by spreading a value into an object literal,
`{...v}`: objects contribute their fields; `undefined`, `null`, booleans and
numbers contribute nothing.  (Spreading a string would contribute index
keys; the engine only spreads values that are objects by contract.) -/
def spreadFields : JValue → List (String × JValue)
  | .obj fields => fields
  | _ => []

/-- JS `ToPropertyKey` coercion for computed member access `o[x]`, on the
value shapes the engine can feed it; keys used by the host are always
strings. -/
def jToKey : JValue → String
  | .str s => s
  | .num n => toString n
  | .bool b => if b then "true" else "false"
  | .null => "null"
  | .jsUndefined => "undefined"
  | .arr _ => ""
  | .obj _ => "[object Object]"

/-! ## `packages/core/src/constants.ts` -/

/-- The dash-stripping step `secret.replace` with the global dash pattern,
shared by `isValidSecret` and `derivePlayerId`: remove every dash. -/
def stripDashes (s : String) : String :=
  String.mk (s.data.filter (fun c => c ≠ '-'))

/-- One character of the case-insensitive hex class `[0-9a-f]` of the
`isValidSecret` regular expression. -/
def isHexDigit (c : Char) : Bool :=
  (decide ('0' ≤ c) && decide (c ≤ '9')) ||
  (decide ('a' ≤ c) && decide (c ≤ 'f')) ||
  (decide ('A' ≤ c) && decide (c ≤ 'F'))

/-- `isValidSecret` from constants.ts: strip dashes, require at least 32
characters, all from `[0-9a-f]` case-insensitively. -/
def isValidSecret (secret : String) : Bool :=
  let hex := stripDashes secret
  decide (32 ≤ hex.length) && hex.data.all isHexDigit

/-- `derivePlayerId` from constants.ts: strip dashes and take the first 16
characters. -/
def derivePlayerId (secret : String) : String :=
  (stripDashes secret).take 16

/-! ## `createGameReducer` (`packages/core/src/types.ts`)

The wrapped reducer runs on runtime JS values; the TypeScript interfaces
are erased.  `reducer` is the user reduction function the wrapper
delegates every non-reserved action to. -/

/-- The runtime body of the function returned by `createGameReducer`. -/
def createGameReducer (reducer : JValue → JValue → JValue)
    (state : JValue) (action : JValue) : JValue :=
  match jget action "type" with
  | .str t =>
    if t = "__HYDRATE__" then
      jget action "payload"
    else if t = "__PLAYER_JOINED__" then
      let p := jget action "payload"
      let idv := jget p "id"
      let record : JValue := .obj
        [("id", idv), ("name", jget p "name"), ("avatar", jget p "avatar"),
         ("isHost", .bool false), ("connected", .bool true)]
      .obj (setKey "players"
        (.obj (setKey (jToKey idv) record (spreadFields (jget state "players"))))
        (spreadFields state))
    else if t = "__PLAYER_LEFT__" then
      let key := jToKey (jget (jget action "payload") "playerId")
      let player := jget (jget state "players") key
      if jtruthy player = false then state
      else
        .obj (setKey "players"
          (.obj (setKey key (.obj (setKey "connected" (.bool false) (spreadFields player)))
            (spreadFields (jget state "players"))))
          (spreadFields state))
    else if t = "__PLAYER_RECONNECTED__" then
      let key := jToKey (jget (jget action "payload") "playerId")
      let player := jget (jget state "players") key
      if jtruthy player = false then state
      else
        .obj (setKey "players"
          (.obj (setKey key (.obj (setKey "connected" (.bool true) (spreadFields player)))
            (spreadFields (jget state "players"))))
          (spreadFields state))
    else if t = "__PLAYER_REMOVED__" then
      let key := jToKey (jget (jget action "payload") "playerId")
      if jtruthy (jget (jget state "players") key) = false then state
      else
        .obj (setKey "players"
          (.obj (removeKey key (spreadFields (jget state "players"))))
          (spreadFields state))
    else reducer state action
  | _ => reducer state action

/-! ## Wire message validation (`isValidClientMessage`, provider.tsx)

`MessageTypes` from the core package assigns each message type its own
name as the string value, so the comparisons below are against the
literal strings. -/

/-- The `typeof m.payload === "object" && m.payload !== null` test
(arrays also have `typeof` `"object"`). -/
def isObjectNonNull : JValue → Bool
  | .obj _ => true
  | .arr _ => true
  | _ => false

/-- The `typeof x === "string"` test. -/
def isStr : JValue → Bool
  | .str _ => true
  | _ => false

/-- The `typeof x === "number"` test. -/
def isNum : JValue → Bool
  | .num _ => true
  | _ => false

/-- The strict-equality `x === true` test. -/
def isTrueVal : JValue → Bool
  | .bool b => b
  | _ => false

/-- `isValidClientMessage` from provider.tsx. -/
def isValidClientMessage (msg : JValue) : Bool :=
  if isObjectNonNull msg = false then false
  else
    match jget msg "type" with
    | .str t =>
      if t = "JOIN" then
        isObjectNonNull (jget msg "payload") && isStr (jget (jget msg "payload") "name")
      else if t = "ACTION" then
        isObjectNonNull (jget msg "payload") && isStr (jget (jget msg "payload") "type")
      else if t = "PING" then
        isObjectNonNull (jget msg "payload") && isStr (jget (jget msg "payload") "id") &&
          isNum (jget (jget msg "payload") "timestamp")
      else if t = "ASSETS_LOADED" then
        isTrueVal (jget msg "payload")
      else false
    | _ => false

/-! ## The host message handler (`server.on("message", ...)`, provider.tsx)

The handler reads the current state and the session registries, sends
replies on the triggering socket, and dispatches actions into the
reducer.  The model returns every externally visible effect of one
handler run.  `threw` records the one input shape on which the source
would raise an uncaught `TypeError` (a truthy non-string `secret`
reaching `isValidSecret`). -/

/-- Everything one run of the message handler does. -/
structure HandlerResult : Type where
  /-- Messages passed to `server.send` for the triggering socket, in order. -/
  sent : List JValue
  /-- Actions dispatched into the wrapped reducer, in order. -/
  dispatched : List JValue
  /-- `sessions` registry (secret to socket id) after the run. -/
  sessions : List (String × String)
  /-- `reverseMap` registry (socket id to secret) after the run. -/
  reverseMap : List (String × String)
  /-- Player ids that hold an active stale-cleanup timer after the run. -/
  cleanupTimers : List String
  /-- `pendingWelcome` (socket id to player id) after the run. -/
  pendingWelcome : List (String × String)
  /-- Arguments of `onPlayerJoined` observer calls made during the run. -/
  joinedObserver : List (String × JValue)
  /-- True when a `TypeError` escapes the handler. -/
  threw : Bool

/-- The `ERROR` reply shape used throughout provider.tsx. -/
def errorMsg (code message : String) : JValue :=
  .obj [("type", .str "ERROR"),
        ("payload", .obj [("code", .str code), ("message", .str message)])]

/-- The `__PLAYER_RECONNECTED__` action as dispatched by the JOIN branch. -/
def playerReconnectedAction (playerId : String) : JValue :=
  .obj [("type", .str "__PLAYER_RECONNECTED__"),
        ("payload", .obj [("playerId", .str playerId)])]

/-- The `__PLAYER_JOINED__` action as dispatched by the JOIN branch:
`payload` is the object literal `{id: playerId, ...rest}` where `rest` is
the JOIN payload with `secret` destructured away. -/
def playerJoinedAction (playerId : String) (rest : List (String × JValue)) : JValue :=
  .obj [("type", .str "__PLAYER_JOINED__"),
        ("payload", .obj (spreadInto [("id", .str playerId)] rest))]

/-- The `__PLAYER_LEFT__` action as dispatched by the disconnect handler. -/
def playerLeftAction (playerId : String) : JValue :=
  .obj [("type", .str "__PLAYER_LEFT__"),
        ("payload", .obj [("playerId", .str playerId)])]

/-- The reserved internal action type names rejected by the ACTION branch
(`InternalActionTypes`, types.ts). -/
def reservedActionTypes : List String :=
  ["__HYDRATE__", "__PLAYER_JOINED__", "__PLAYER_LEFT__",
   "__PLAYER_RECONNECTED__", "__PLAYER_REMOVED__"]

/-- One run of the provider message handler: validation, then the JOIN,
ACTION and PING branches (a valid `ASSETS_LOADED` message has no case in
the switch and does nothing). -/
def handleMessage (state : JValue) (sessions reverseMap : List (String × String))
    (cleanupTimers : List String) (pendingWelcome : List (String × String))
    (socketId : String) (now : Int) (msg : JValue) : HandlerResult :=
  let unchanged : HandlerResult :=
    { sent := [], dispatched := [], sessions := sessions, reverseMap := reverseMap,
      cleanupTimers := cleanupTimers, pendingWelcome := pendingWelcome,
      joinedObserver := [], threw := false }
  if isValidClientMessage msg = false then
    { unchanged with sent := [errorMsg "INVALID_MESSAGE" "Malformed message"] }
  else
    match jget msg "type" with
    | .str t =>
      if t = "JOIN" then
        let payloadV := jget msg "payload"
        let secret := jget payloadV "secret"
        let rest := removeKey "secret" (spreadFields payloadV)
        if jtruthy secret = false then
          { unchanged with
            sent := [errorMsg "INVALID_SECRET" "Invalid or missing session secret"] }
        else
          match secret with
          | .str s =>
            if isValidSecret s = false then
              { unchanged with
                sent := [errorMsg "INVALID_SECRET" "Invalid or missing session secret"] }
            else
              let playerId := derivePlayerId s
              let action : JValue :=
                if jtruthy (jget (jget state "players") playerId) then
                  playerReconnectedAction playerId
                else
                  playerJoinedAction playerId rest
              { sent := [], dispatched := [action],
                sessions := setKey s socketId sessions,
                reverseMap := setKey socketId s reverseMap,
                cleanupTimers := cleanupTimers.filter (fun pid => pid ≠ playerId),
                pendingWelcome := setKey socketId playerId pendingWelcome,
                joinedObserver := [(playerId, jget payloadV "name")], threw := false }
          | _ => { unchanged with threw := true }
      else if t = "ACTION" then
        let p := jget msg "payload"
        match jget p "type" with
        | .str at₁ =>
          if reservedActionTypes.contains at₁ then
            { unchanged with
              sent := [errorMsg "FORBIDDEN_ACTION"
                "Internal action types cannot be dispatched by clients"] }
          else
            let resolved : JValue :=
              match lookupKey socketId reverseMap with
              | some s => .str (derivePlayerId s)
              | none => .jsUndefined
            { unchanged with
              dispatched := [.obj (setKey "playerId" resolved (spreadFields p))] }
        | _ => unchanged
      else if t = "PING" then
        let p := jget msg "payload"
        { unchanged with
          sent := [.obj [("type", .str "PONG"),
            ("payload", .obj [("id", jget p "id"),
              ("origTimestamp", jget p "timestamp"), ("serverTime", .num now)])]] }
      else unchanged
    | _ => unchanged

/-! ## The host disconnect handler (`server.on("disconnect", ...)`, provider.tsx) -/

/-- Everything one run of the disconnect handler does. -/
structure DisconnectResult : Type where
  /-- `welcomedClients` after the run. -/
  welcomed : List String
  /-- `pendingWelcome` after the run. -/
  pendingWelcome : List (String × String)
  /-- `reverseMap` after the run. -/
  reverseMap : List (String × String)
  /-- `sessions` after the run. -/
  sessions : List (String × String)
  /-- Player ids holding an active stale-cleanup timer after the run. -/
  cleanupTimers : List String
  /-- Actions dispatched into the wrapped reducer, in order. -/
  dispatched : List JValue
  /-- Arguments of `onPlayerLeft` observer calls made during the run. -/
  leftObserver : List String
  /-- Player ids for which a fresh 5-minute removal timer was scheduled. -/
  timersScheduled : List String

/-- One run of the provider disconnect handler. -/
def handleDisconnect (welcomed : List String) (pendingWelcome : List (String × String))
    (sessions reverseMap : List (String × String)) (cleanupTimers : List String)
    (socketId : String) : DisconnectResult :=
  let welcomedAfter := welcomed.filter (fun id => id ≠ socketId)
  let reverseAfter := removeKey socketId reverseMap
  let stop : DisconnectResult :=
    { welcomed := welcomedAfter, pendingWelcome := pendingWelcome,
      reverseMap := reverseAfter, sessions := sessions,
      cleanupTimers := cleanupTimers, dispatched := [],
      leftObserver := [], timersScheduled := [] }
  match lookupKey socketId reverseMap with
  | none => stop
  | some secret =>
    if secret = "" then stop
    else
      let playerId := derivePlayerId secret
      if lookupKey secret sessions ≠ some socketId then stop
      else
        { welcomed := welcomedAfter, pendingWelcome := pendingWelcome,
          reverseMap := reverseAfter, sessions := sessions,
          cleanupTimers :=
            if cleanupTimers.contains playerId then cleanupTimers
            else cleanupTimers ++ [playerId],
          dispatched := [playerLeftAction playerId],
          leftObserver := [playerId], timersScheduled := [playerId] }

/-! ## Per-connection buffer (`packages/host/src/buffer-utils.ts`)

A Node `Buffer` is a fixed block of bytes; the model keeps the allocated
bytes as a list whose length is the capacity, next to the `bufferLength`
cursor of valid bytes. -/

/-- The buffer fields of a `ManagedSocket`. -/
structure ManagedBuffer : Type where
  /-- The allocated bytes; the list length is the allocation capacity. -/
  buffer : List Nat
  /-- Number of valid bytes at the front of `buffer`. -/
  bufferLength : Nat

/-- `appendToBuffer` from buffer-utils.ts: grow to
`max(2 * capacity, bufferLength + data.length)` when the data would not
fit (copying the valid prefix into the fresh zeroed allocation), then copy
the incoming bytes after the cursor. -/
def appendToBuffer (m : ManagedBuffer) (data : List Nat) : ManagedBuffer :=
  let needed := m.bufferLength + data.length
  let buf :=
    if m.buffer.length < needed then
      let newCapacity := max (m.buffer.length * 2) needed
      m.buffer.take m.bufferLength ++ List.replicate (newCapacity - m.bufferLength) 0
    else m.buffer
  { buffer := buf.take m.bufferLength ++ data ++ buf.drop needed,
    bufferLength := needed }

/-- `compactBuffer` from buffer-utils.ts: when everything was consumed just
reset the cursor; otherwise shift the tail `[consumed, bufferLength)` to
offset 0 (the bytes from `bufferLength - consumed` on are untouched). -/
def compactBuffer (m : ManagedBuffer) (consumed : Nat) : ManagedBuffer :=
  if m.bufferLength ≤ consumed then { m with bufferLength := 0 }
  else
    let remaining := m.bufferLength - consumed
    { buffer := (m.buffer.drop consumed).take remaining ++ m.buffer.drop remaining,
      bufferLength := remaining }

/-! ## Frame codec (`GameWebSocketServer.decodeFrame` and `buildFrame`) -/

/-- Big-endian 16-bit read, `buffer.readUInt16BE(i)`. -/
def readU16BE (buffer : List Nat) (i : Nat) : Nat :=
  buffer.getD i 0 * 256 + buffer.getD (i + 1) 0

/-- Big-endian 32-bit read, `buffer.readUInt32BE(i)`. -/
def readU32BE (buffer : List Nat) (i : Nat) : Nat :=
  buffer.getD i 0 * 16777216 + buffer.getD (i + 1) 0 * 65536 +
    buffer.getD (i + 2) 0 * 256 + buffer.getD (i + 3) 0

/-- Outcome of one `decodeFrame` call: `needMore` is the source returning
`null`, `error` is the source throwing. -/
inductive DecodeResult : Type where
  | needMore : DecodeResult
  | frame (opcode : Nat) (payload : List Nat) (bytesConsumed : Nat) : DecodeResult
  | error (message : String) : DecodeResult
deriving DecidableEq

/-- The message of the error thrown on a 64-bit length with non-zero high
32 bits. -/
def frameTooLargeMsg : String :=
  "Frame payload too large (exceeds 4 GB)"

/-- The message of the error thrown when the declared payload length
exceeds the configured maximum. -/
def oversizeMsg (payloadLength maxFrameSize : Nat) : String :=
  "Frame payload (" ++ toString payloadLength ++
    " bytes) exceeds maximum allowed size (" ++ toString maxFrameSize ++ " bytes)"

/-- `decodeFrame` from the WebSocket server, on the byte view starting at a
frame boundary. -/
def decodeFrame (maxFrameSize : Nat) (buffer : List Nat) : DecodeResult :=
  if buffer.length < 2 then .needMore
  else
    let firstByte := buffer.getD 0 0
    let opcode := firstByte &&& 0x0f
    let secondByte := buffer.getD 1 0
    let isMasked := secondByte &&& 0x80 ≠ 0
    let len7 := secondByte &&& 0x7f
    let step : Option (Nat × Nat) :=   -- (payloadLength, headerLength) or incomplete
      if len7 = 126 then
        if buffer.length < 4 then none else some (readU16BE buffer 2, 4)
      else if len7 = 127 then
        if buffer.length < 10 then none else some (readU32BE buffer 6, 10)
      else some (len7, 2)
    match step with
    | none => .needMore
    | some (payloadLength, headerLength) =>
      if len7 = 127 ∧ 0 < readU32BE buffer 2 then
        .error frameTooLargeMsg
      else if maxFrameSize < payloadLength then
        .error (oversizeMsg payloadLength maxFrameSize)
      else
        let maskLength := if isMasked then 4 else 0
        let totalFrameLength := headerLength + maskLength + payloadLength
        if buffer.length < totalFrameLength then .needMore
        else
          let payload :=
            if isMasked then
              (List.range payloadLength).map (fun i =>
                buffer.getD (headerLength + 4 + i) 0 ^^^ buffer.getD (headerLength + i % 4) 0)
            else (buffer.drop headerLength).take payloadLength
          .frame opcode payload totalFrameLength

/-- The payload length a frame header declares, read off the same header
fields `decodeFrame` parses; `none` while the header itself is incomplete.
In the 127 case this is the full 64-bit big-endian value. -/
def declaredLength (buffer : List Nat) : Option Nat :=
  if buffer.length < 2 then none
  else
    let len7 := buffer.getD 1 0 &&& 0x7f
    if len7 = 126 then
      if buffer.length < 4 then none else some (readU16BE buffer 2)
    else if len7 = 127 then
      if buffer.length < 10 then none
      else some (readU32BE buffer 2 * 4294967296 + readU32BE buffer 6)
    else some len7

/-- Big-endian bytes written by `frame.writeUInt16BE`. -/
def u16Bytes (n : Nat) : List Nat :=
  [n / 256 % 256, n % 256]

/-- Big-endian bytes written by `frame.writeUInt32BE`. -/
def u32Bytes (n : Nat) : List Nat :=
  [n / 16777216 % 256, n / 65536 % 256, n / 256 % 256, n % 256]

/-- `buildFrame` from the WebSocket server: single frame, FIN bit set,
never masked, with the 1-byte, 16-bit or 64-bit length form chosen by the
payload length. -/
def buildFrame (opcode : Nat) (payload : List Nat) : List Nat :=
  if 65535 < payload.length then
    (0x80 ||| opcode) :: 127 :: (u32Bytes 0 ++ u32Bytes payload.length ++ payload)
  else if 125 < payload.length then
    (0x80 ||| opcode) :: 126 :: (u16Bytes payload.length ++ payload)
  else
    (0x80 ||| opcode) :: payload.length :: payload

/-! ## `GameWebSocketServer.send`

`send` looks the socket id up in the connected-client table and returns
without any effect when it is absent; only on a hit does it serialize and
write, and a write failure is caught and surfaced as an `error` event.
The model carries per-client write outcomes (`true` = the write throws)
to represent the try/catch, and `serialized` records whether
`JSON.stringify` and `encodeFrame` ran at all. -/

/-- Everything one `send` call does. -/
structure SendResult : Type where
  /-- True when the data was serialized and a frame was built. -/
  serialized : Bool
  /-- Frames written, as (socket id, frame bytes). -/
  writes : List (String × List Nat)
  /-- Number of `error` events emitted. -/
  errorEvents : Nat

/-- `send(socketId, data)` with `data` already rendered to its JSON text
(`JSON.stringify` output) and the UTF-8 bytes of that text as the frame
payload. -/
def send (clients : List (String × Bool)) (socketId : String) (data : String) :
    SendResult :=
  match lookupKey socketId clients with
  | none => { serialized := false, writes := [], errorEvents := 0 }
  | some writeThrows =>
    let frame := buildFrame 0x1 (data.toUTF8.toList.map (fun b => b.toNat))
    if writeThrows then { serialized := true, writes := [], errorEvents := 1 }
    else { serialized := true, writes := [(socketId, frame)], errorEvents := 0 }

/-! ## Observation predicates used by the theorems -/

mutual

/-- No object anywhere inside the value carries a field named `secret`. -/
def noSecret : JValue → Bool
  | .jsUndefined => true
  | .null => true
  | .bool _ => true
  | .num _ => true
  | .str _ => true
  | .arr elems => noSecretList elems
  | .obj fields => noSecretFields fields

/-- `noSecret` on every element of a list. -/
def noSecretList : List JValue → Bool
  | [] => true
  | v :: rest => noSecret v && noSecretList rest

/-- No entry key is `secret`, and no entry value contains one inside. -/
def noSecretFields : List (String × JValue) → Bool
  | [] => true
  | (k, v) :: rest => decide (k ≠ "secret") && noSecret v && noSecretFields rest

end

/-- Modelled from the spec: the four wire shapes that §4.5 declares valid,
with the JOIN shape amended to what the validator actually requires — a
`payload` object carrying a string `name`; `secret` is not part of the
structural check. -/
def SpecClientMessageShape (msg : JValue) : Prop :=
  ∃ fields, msg = .obj fields ∧
    ((lookupKey "type" fields = some (.str "JOIN") ∧
       ∃ pf, lookupKey "payload" fields = some (.obj pf) ∧
         ∃ name, lookupKey "name" pf = some (.str name)) ∨
     (lookupKey "type" fields = some (.str "ACTION") ∧
       ∃ pf, lookupKey "payload" fields = some (.obj pf) ∧
         ∃ t, lookupKey "type" pf = some (.str t)) ∨
     (lookupKey "type" fields = some (.str "PING") ∧
       ∃ pf, lookupKey "payload" fields = some (.obj pf) ∧
         (∃ i, lookupKey "id" pf = some (.str i)) ∧
         (∃ ts, lookupKey "timestamp" pf = some (.num ts))) ∨
     (lookupKey "type" fields = some (.str "ASSETS_LOADED") ∧
       lookupKey "payload" fields = some (.bool true)))

/-! ## Association-list lemmas -/

theorem lookupKey_setKey {α : Type} (k k₀ : String) (v : α) (l : List (String × α)) :
    lookupKey k (setKey k₀ v l) = if k₀ = k then some v else lookupKey k l := by
  induction l with
  | nil => by_cases h : k₀ = k <;> simp [setKey, lookupKey, h]
  | cons hd tl ih =>
    obtain ⟨k₁, v₁⟩ := hd
    by_cases h₁ : k₁ = k₀
    · subst h₁
      by_cases h₂ : k₁ = k <;> simp [setKey, lookupKey, h₂]
    · by_cases h₂ : k₁ = k
      · subst h₂
        simp [setKey, lookupKey, h₁, Ne.symm h₁]
      · simp [setKey, lookupKey, h₁, h₂, ih]

theorem setKey_eq_of_lookupKey {α : Type} (k : String) (v : α) (l : List (String × α))
    (h : lookupKey k l = some v) : setKey k v l = l := by
  induction l with
  | nil => simp [lookupKey] at h
  | cons hd tl ih =>
    obtain ⟨k₁, v₁⟩ := hd
    by_cases h₁ : k₁ = k
    · subst h₁
      simp [lookupKey] at h
      simp [setKey, h]
    · simp [lookupKey, h₁] at h
      simp [setKey, h₁, ih h]

theorem setKey_setKey {α : Type} (k : String) (v w : α) (l : List (String × α)) :
    setKey k v (setKey k w l) = setKey k v l := by
  induction l with
  | nil => simp [setKey]
  | cons hd tl ih =>
    obtain ⟨k₁, v₁⟩ := hd
    by_cases h₁ : k₁ = k <;> simp [setKey, h₁, ih]

theorem lookupKey_removeKey_self {α : Type} (k : String) (l : List (String × α)) :
    lookupKey k (removeKey k l) = none := by
  induction l with
  | nil => simp [removeKey, lookupKey]
  | cons hd tl ih =>
    obtain ⟨k₁, v₁⟩ := hd
    by_cases h₁ : k₁ = k <;> simp [removeKey, lookupKey, h₁, ih]

theorem keys_removeKey_ne {α : Type} (k : String) (l : List (String × α)) :
    ∀ kv ∈ removeKey k l, kv.1 ≠ k := by
  induction l with
  | nil => simp [removeKey]
  | cons hd tl ih =>
    obtain ⟨k₁, v₁⟩ := hd
    by_cases h₁ : k₁ = k
    · simpa [removeKey, h₁] using ih
    · intro kv hkv
      rcases (by simpa [removeKey, h₁] using hkv) with h | h
      · subst h; simpa using h₁
      · exact ih kv h

theorem lookupKey_spreadInto {α : Type} (k : String) (base extra : List (String × α))
    (hextra : ∀ kv ∈ extra, kv.1 ≠ k) :
    lookupKey k (spreadInto base extra) = lookupKey k base := by
  induction extra generalizing base with
  | nil => simp [spreadInto]
  | cons hd tl ih =>
    obtain ⟨k₁, v₁⟩ := hd
    have hk₁ : k₁ ≠ k := hextra (k₁, v₁) (by simp)
    have htl : ∀ kv ∈ tl, kv.1 ≠ k := fun kv hkv => hextra kv (by simp [hkv])
    calc lookupKey k (spreadInto base ((k₁, v₁) :: tl))
        = lookupKey k (spreadInto (setKey k₁ v₁ base) tl) := by simp [spreadInto]
      _ = lookupKey k (setKey k₁ v₁ base) := ih (setKey k₁ v₁ base) htl
      _ = lookupKey k base := by simp [lookupKey_setKey, hk₁]

/-! ## Claim C10 — `send` on an unregistered socket id is a silent no-op -/

/-- C10: `send(socketId, data)` with a socket id absent from the
connected-client table writes no frame, emits no error event, raises
nothing, and does not even serialize the data. -/
theorem send_unknown_socket_noop (clients : List (String × Bool)) (socketId : String)
    (data : String) (h : lookupKey socketId clients = none) :
    send clients socketId data =
      { serialized := false, writes := [], errorEvents := 0 } := by
  simp [send, h]

/-- Witness for C10 at a concrete table: `send` to an id that is not the
one registered client does nothing. -/
theorem send_unknown_socket_noop_witness :
    send [("c1", false)] "c2" "x" =
      { serialized := false, writes := [], errorEvents := 0 } :=
  send_unknown_socket_noop [("c1", false)] "c2" "x" rfl

/-! ## Claim C5 — the disconnect race guard -/

/-- C5: when `reverseMap` still resolves the disconnecting socket to a
secret but `sessions` no longer maps that secret to this socket (the
session was adopted by a newer connection), the disconnect handler stops
after the socket-keyed removals: no `__PLAYER_LEFT__` dispatch, no
`onPlayerLeft` call, no cleanup timer scheduled, and `sessions` and the
timer table are untouched. -/
theorem disconnect_race_guard_stops (welcomed : List String)
    (pendingWelcome : List (String × String)) (sessions reverseMap : List (String × String))
    (cleanupTimers : List String) (socketId secret : String)
    (hsec : lookupKey socketId reverseMap = some secret)
    (hrace : lookupKey secret sessions ≠ some socketId) :
    handleDisconnect welcomed pendingWelcome sessions reverseMap cleanupTimers socketId =
      { welcomed := welcomed.filter (fun id => id ≠ socketId),
        pendingWelcome := pendingWelcome,
        reverseMap := removeKey socketId reverseMap,
        sessions := sessions, cleanupTimers := cleanupTimers,
        dispatched := [], leftObserver := [], timersScheduled := [] } := by
  unfold handleDisconnect
  rw [hsec]
  by_cases hs : secret = ""
  · simp [hs]
  · simp [hs, hrace]

/-- Witness for C5: socket `c1` still resolves to secret `s`, but the
session was adopted by `c2`; the handler only removes the `c1` entries. -/
theorem disconnect_race_guard_stops_witness :
    handleDisconnect ["c1"] [] [("s", "c2")] [("c1", "s")] [] "c1" =
      { welcomed := [], pendingWelcome := [],
        reverseMap := [], sessions := [("s", "c2")], cleanupTimers := [],
        dispatched := [], leftObserver := [], timersScheduled := [] } := by
  have h := disconnect_race_guard_stops ["c1"] [] [("s", "c2")] [("c1", "s")] [] "c1" "s"
    rfl (by decide)
  simpa using h

/-! ## Claim C6 — what the disconnect handler removes

The source disconnect handler runs `welcomedClients.current.delete(socketId)`
but never touches `pendingWelcome`; the claim that it clears both is
refuted below and amended to what the code does. -/

/-- C6 counterexample: a disconnect for `c1` leaves the `pendingWelcome`
entry keyed by `c1` in place, contradicting the claim that the handler
removes the socket id from both `welcomed` and `pendingWelcome`. -/
theorem disconnect_keeps_pendingWelcome_entry :
    lookupKey "c1" (handleDisconnect ["c1"]
      [("c1", "p1")] [] [] [] "c1").pendingWelcome = some "p1" := rfl

/-- C6 amended: the disconnect handler removes the socket id from the
`welcomed` set, and leaves `pendingWelcome` exactly as it was. -/
theorem disconnect_removes_welcomed_only (welcomed : List String)
    (pendingWelcome : List (String × String)) (sessions reverseMap : List (String × String))
    (cleanupTimers : List String) (socketId : String) :
    (handleDisconnect welcomed pendingWelcome sessions reverseMap cleanupTimers
      socketId).welcomed = welcomed.filter (fun id => id ≠ socketId) ∧
    (handleDisconnect welcomed pendingWelcome sessions reverseMap cleanupTimers
      socketId).pendingWelcome = pendingWelcome := by
  unfold handleDisconnect
  rcases lookupKey socketId reverseMap with _ | secret
  · simp
  · by_cases hs : secret = ""
    · simp [hs]
    · by_cases hr : lookupKey secret sessions ≠ some socketId <;> simp [hs, hr]

/-! ## Claim C1 — reserved action types are rejected -/

/-- C1: an ACTION message whose `payload.type` is one of the five reserved
internal names is answered with `ERROR{code: FORBIDDEN_ACTION}` on the
triggering socket, nothing is dispatched into the reducer, every registry
is left untouched, and the game state is unchanged (folding the empty
dispatch list through the wrapped reducer is the identity). -/
theorem forbidden_action_rejected (state : JValue)
    (sessions reverseMap : List (String × String)) (cleanupTimers : List String)
    (pendingWelcome : List (String × String)) (socketId : String) (now : Int)
    (msg : JValue) (t : String)
    (hmsg : isValidClientMessage msg = true)
    (htype : jget msg "type" = .str "ACTION")
    (hp : jget (jget msg "payload") "type" = .str t)
    (hres : t ∈ reservedActionTypes) :
    handleMessage state sessions reverseMap cleanupTimers pendingWelcome socketId now msg =
      { sent := [errorMsg "FORBIDDEN_ACTION"
          "Internal action types cannot be dispatched by clients"],
        dispatched := [], sessions := sessions, reverseMap := reverseMap,
        cleanupTimers := cleanupTimers, pendingWelcome := pendingWelcome,
        joinedObserver := [], threw := false } ∧
    (∀ r s₀, ((handleMessage state sessions reverseMap cleanupTimers pendingWelcome
        socketId now msg).dispatched).foldl (createGameReducer r) s₀ = s₀) := by
  have hmain : handleMessage state sessions reverseMap cleanupTimers pendingWelcome
      socketId now msg =
      { sent := [errorMsg "FORBIDDEN_ACTION"
          "Internal action types cannot be dispatched by clients"],
        dispatched := [], sessions := sessions, reverseMap := reverseMap,
        cleanupTimers := cleanupTimers, pendingWelcome := pendingWelcome,
        joinedObserver := [], threw := false } := by
    unfold handleMessage
    rw [hmsg, htype]
    simp only [Bool.true_eq_false, if_false]
    rw [hp]
    simp [List.elem_eq_true_of_mem hres, hres]
  refine ⟨hmain, fun r s₀ => ?_⟩
  rw [hmain]
  rfl

/-- Witness for C1: a client tries to inject `__HYDRATE__` through ACTION
and is rejected with FORBIDDEN_ACTION, with nothing dispatched. -/
theorem forbidden_action_rejected_witness :
    handleMessage (.obj [("status", .str "lobby"), ("players", .obj [])])
        [] [] [] [] "c1" 0
        (.obj [("type", .str "ACTION"),
          ("payload", .obj [("type", .str "__HYDRATE__"),
            ("payload", .obj [("malicious", .bool true)])])]) =
      { sent := [errorMsg "FORBIDDEN_ACTION"
          "Internal action types cannot be dispatched by clients"],
        dispatched := [], sessions := [], reverseMap := [],
        cleanupTimers := [], pendingWelcome := [],
        joinedObserver := [], threw := false } :=
  (forbidden_action_rejected (.obj [("status", .str "lobby"), ("players", .obj [])])
    [] [] [] [] "c1" 0
    (.obj [("type", .str "ACTION"),
      ("payload", .obj [("type", .str "__HYDRATE__"),
        ("payload", .obj [("malicious", .bool true)])])])
    "__HYDRATE__" rfl rfl rfl (by simp [reservedActionTypes])).1

/-! ## Claim C2 — wire message validation -/

theorem jget_of_lookupKey (fields : List (String × JValue)) (k : String) (v : JValue)
    (h : lookupKey k fields = some v) : jget (.obj fields) k = v := by
  simp [jget, h]

theorem lookupKey_of_jget (fields : List (String × JValue)) (k : String) (v : JValue)
    (h : jget (.obj fields) k = v) (hne : v ≠ .jsUndefined) : lookupKey k fields = some v := by
  cases hl : lookupKey k fields with
  | none =>
    have hu : jget (.obj fields) k = .jsUndefined := by simp [jget, hl]
    exact absurd (hu.symm.trans h).symm hne
  | some w =>
    have hw : jget (.obj fields) k = w := by simp [jget, hl]
    rw [hw.symm.trans h]

theorem isStr_iff (v : JValue) : isStr v = true ↔ ∃ s, v = .str s := by
  cases v <;> simp [isStr]

theorem isNum_iff (v : JValue) : isNum v = true ↔ ∃ n, v = .num n := by
  cases v <;> simp [isNum]

theorem isTrueVal_iff (v : JValue) : isTrueVal v = true ↔ v = .bool true := by
  cases v <;> simp [isTrueVal]

theorem isObjectNonNull_iff (v : JValue) :
    isObjectNonNull v = true ↔ (∃ f, v = .obj f) ∨ (∃ e, v = .arr e) := by
  cases v <;> simp [isObjectNonNull]

/-- C2 counterexample: a JOIN whose payload has a string `name` but no
`secret` at all passes `isValidClientMessage` (refuting the claim that a
JOIN is valid only when both `name` and `secret` are strings), and the
handler answers it with `INVALID_SECRET`, not `INVALID_MESSAGE`. -/
theorem join_without_secret_passes_validation :
    isValidClientMessage
        (.obj [("type", .str "JOIN"), ("payload", .obj [("name", .str "A")])]) = true ∧
    (handleMessage (.obj [("status", .str "lobby"), ("players", .obj [])]) [] [] [] [] "c1" 0
        (.obj [("type", .str "JOIN"), ("payload", .obj [("name", .str "A")])])).sent =
      [errorMsg "INVALID_SECRET" "Invalid or missing session secret"] :=
  ⟨rfl, rfl⟩

/-- C2 amended: an incoming wire message is structurally valid if and only
if it matches one of the four listed shapes with the JOIN shape requiring
only a string `name` (the validator does not inspect `secret`; a JOIN
lacking a usable secret passes validation and is answered by the JOIN
branch with `INVALID_SECRET`), and every invalid message is answered with
`ERROR{code: INVALID_MESSAGE, message: "Malformed message"}` and otherwise
ignored. -/
theorem valid_message_characterization :
    (∀ msg, isValidClientMessage msg = true ↔ SpecClientMessageShape msg) ∧
    (∀ (state : JValue) (sessions reverseMap : List (String × String))
      (cleanupTimers : List String) (pendingWelcome : List (String × String))
      (socketId : String) (now : Int) (msg : JValue),
      isValidClientMessage msg = false →
      handleMessage state sessions reverseMap cleanupTimers pendingWelcome socketId now msg =
        { sent := [errorMsg "INVALID_MESSAGE" "Malformed message"], dispatched := [],
          sessions := sessions, reverseMap := reverseMap, cleanupTimers := cleanupTimers,
          pendingWelcome := pendingWelcome, joinedObserver := [], threw := false }) := by
  constructor
  · intro msg
    constructor
    · intro hv
      match msg with
      | .jsUndefined | .null | .bool _ | .num _ | .str _ =>
        simp [isValidClientMessage, isObjectNonNull] at hv
      | .arr elems => simp [isValidClientMessage, isObjectNonNull, jget] at hv
      | .obj fields =>
        refine ⟨fields, rfl, ?_⟩
        unfold isValidClientMessage at hv
        simp only [isObjectNonNull, Bool.true_eq_false, if_false] at hv
        split at hv
        case h_2 => exact absurd hv (by simp)
        case h_1 t htv =>
          have htl : lookupKey "type" fields = some (.str t) :=
            lookupKey_of_jget fields "type" (.str t) htv (by simp)
          by_cases hj : t = "JOIN"
          · subst hj
            rw [if_pos rfl, Bool.and_eq_true] at hv
            obtain ⟨h₁, h₂⟩ := hv
            obtain ⟨s, hn⟩ := (isStr_iff _).mp h₂
            rcases (isObjectNonNull_iff _).mp h₁ with ⟨pf, hpf⟩ | ⟨el, hel⟩
            · rw [hpf] at hn
              exact Or.inl ⟨htl, pf, lookupKey_of_jget _ _ _ hpf (by simp),
                s, lookupKey_of_jget _ _ _ hn (by simp)⟩
            · rw [hel] at hn
              simp [jget] at hn
          · by_cases ha : t = "ACTION"
            · subst ha
              rw [if_neg (by simp), if_pos rfl, Bool.and_eq_true] at hv
              obtain ⟨h₁, h₂⟩ := hv
              obtain ⟨s, hn⟩ := (isStr_iff _).mp h₂
              rcases (isObjectNonNull_iff _).mp h₁ with ⟨pf, hpf⟩ | ⟨el, hel⟩
              · rw [hpf] at hn
                exact Or.inr (Or.inl ⟨htl, pf, lookupKey_of_jget _ _ _ hpf (by simp),
                  s, lookupKey_of_jget _ _ _ hn (by simp)⟩)
              · rw [hel] at hn
                simp [jget] at hn
            · by_cases hpi : t = "PING"
              · subst hpi
                rw [if_neg (by simp), if_neg (by simp), if_pos rfl, Bool.and_eq_true,
                  Bool.and_eq_true] at hv
                obtain ⟨⟨h₁, h₂⟩, h₃⟩ := hv
                obtain ⟨s, hid⟩ := (isStr_iff _).mp h₂
                obtain ⟨n, hts⟩ := (isNum_iff _).mp h₃
                rcases (isObjectNonNull_iff _).mp h₁ with ⟨pf, hpf⟩ | ⟨el, hel⟩
                · rw [hpf] at hid hts
                  exact Or.inr (Or.inr (Or.inl ⟨htl, pf,
                    lookupKey_of_jget _ _ _ hpf (by simp),
                    ⟨s, lookupKey_of_jget _ _ _ hid (by simp)⟩,
                    ⟨n, lookupKey_of_jget _ _ _ hts (by simp)⟩⟩))
                · rw [hel] at hid
                  simp [jget] at hid
              · by_cases hal : t = "ASSETS_LOADED"
                · subst hal
                  rw [if_neg (by simp), if_neg (by simp), if_neg (by simp), if_pos rfl] at hv
                  have hb : jget (.obj fields) "payload" = .bool true := (isTrueVal_iff _).mp hv
                  exact Or.inr (Or.inr (Or.inr ⟨htl, lookupKey_of_jget _ _ _ hb (by simp)⟩))
                · rw [if_neg hj, if_neg ha, if_neg hpi, if_neg hal] at hv
                  exact absurd hv (by simp)
    · intro hs
      obtain ⟨fields, rfl, hcase⟩ := hs
      rcases hcase with ⟨htl, pf, hpl, s, hn⟩ | ⟨htl, pf, hpl, s, hn⟩ |
        ⟨htl, pf, hpl, ⟨i, hid⟩, ⟨ts, hts⟩⟩ | ⟨htl, hpl⟩
      · unfold isValidClientMessage
        rw [jget_of_lookupKey _ _ _ htl]
        simp [isObjectNonNull, isStr, jget_of_lookupKey _ _ _ hpl, jget_of_lookupKey _ _ _ hn]
      · unfold isValidClientMessage
        rw [jget_of_lookupKey _ _ _ htl]
        simp [isObjectNonNull, isStr, jget_of_lookupKey _ _ _ hpl, jget_of_lookupKey _ _ _ hn]
      · unfold isValidClientMessage
        rw [jget_of_lookupKey _ _ _ htl]
        simp [isObjectNonNull, isStr, isNum, jget_of_lookupKey _ _ _ hpl,
          jget_of_lookupKey _ _ _ hid, jget_of_lookupKey _ _ _ hts]
      · unfold isValidClientMessage
        rw [jget_of_lookupKey _ _ _ htl]
        simp [isObjectNonNull, isTrueVal, jget_of_lookupKey _ _ _ hpl]
  · intro state sessions reverseMap cleanupTimers pendingWelcome socketId now msg hinv
    unfold handleMessage
    rw [hinv]
    simp

/-- Witness for C2 amended: the shape characterization at a concrete valid
PING message, and the INVALID_MESSAGE reply at a concrete invalid one. -/
theorem valid_message_characterization_witness :
    SpecClientMessageShape (.obj [("type", .str "PING"),
      ("payload", .obj [("id", .str "p"), ("timestamp", .num 7)])]) ∧
    handleMessage (.obj [("status", .str "lobby"), ("players", .obj [])])
        [] [] [] [] "c1" 0 (.str "nonsense") =
      { sent := [errorMsg "INVALID_MESSAGE" "Malformed message"], dispatched := [],
        sessions := [], reverseMap := [], cleanupTimers := [],
        pendingWelcome := [], joinedObserver := [], threw := false } :=
  ⟨(valid_message_characterization.1 _).mp rfl,
   valid_message_characterization.2 _ [] [] [] [] "c1" 0 (.str "nonsense") rfl⟩

/-! ## Claim C3 — oversized frames are rejected before the payload -/

theorem getD_take (l : List Nat) (n i d : Nat) (h : i < n) :
    (l.take n).getD i d = l.getD i d := by
  simp [List.getD_eq_getElem?_getD, List.getElem?_take, h]

theorem decodeFrame_error_small (M : Nat) (buffer : List Nat)
    (h2 : ¬ buffer.length < 2)
    (h126 : buffer.getD 1 0 &&& 0x7f ≠ 126) (h127 : buffer.getD 1 0 &&& 0x7f ≠ 127)
    (hbig : M < buffer.getD 1 0 &&& 0x7f) :
    decodeFrame M buffer = .error (oversizeMsg (buffer.getD 1 0 &&& 0x7f) M) := by
  unfold decodeFrame
  rw [if_neg h2]
  simp only [List.getD_eq_getElem?_getD] at h126 h127 hbig
  simp [h126, h127, hbig]

theorem decodeFrame_error_ext16 (M : Nat) (buffer : List Nat)
    (h2 : ¬ buffer.length < 2) (h126 : buffer.getD 1 0 &&& 0x7f = 126)
    (h4 : ¬ buffer.length < 4) (hbig : M < readU16BE buffer 2) :
    decodeFrame M buffer = .error (oversizeMsg (readU16BE buffer 2) M) := by
  unfold decodeFrame
  rw [if_neg h2]
  simp only [List.getD_eq_getElem?_getD] at h126
  simp [h126, h4, hbig]

theorem decodeFrame_error_highbits (M : Nat) (buffer : List Nat)
    (h2 : ¬ buffer.length < 2) (h127 : buffer.getD 1 0 &&& 0x7f = 127)
    (h10 : ¬ buffer.length < 10) (hhigh : 0 < readU32BE buffer 2) :
    decodeFrame M buffer = .error frameTooLargeMsg := by
  unfold decodeFrame
  rw [if_neg h2]
  simp only [List.getD_eq_getElem?_getD] at h127
  simp [h127, h10, hhigh]

theorem decodeFrame_error_ext64 (M : Nat) (buffer : List Nat)
    (h2 : ¬ buffer.length < 2) (h127 : buffer.getD 1 0 &&& 0x7f = 127)
    (h10 : ¬ buffer.length < 10) (hzero : readU32BE buffer 2 = 0)
    (hbig : M < readU32BE buffer 6) :
    decodeFrame M buffer = .error (oversizeMsg (readU32BE buffer 6) M) := by
  unfold decodeFrame
  rw [if_neg h2]
  simp only [List.getD_eq_getElem?_getD] at h127
  simp [h127, h10, hzero, hbig]

/-- C3: for every configured maximum M, an input whose frame header
declares a payload length greater than M — including any 64-bit extended
length whose high 32 bits are non-zero — makes `decodeFrame` fail with an
error (never a frame or `needMore`), and the same error is already
produced from the first ten bytes alone, so the outcome is decided before
any payload byte is consumed; the caller then destroys the connection. -/
theorem oversized_frame_rejected (M : Nat) (buffer : List Nat) (len : Nat)
    (hdecl : declaredLength buffer = some len)
    (hover : M < len ∨ (buffer.getD 1 0 &&& 0x7f = 127 ∧ 0 < readU32BE buffer 2)) :
    ∃ emsg, decodeFrame M buffer = .error emsg ∧
      decodeFrame M (buffer.take 10) = .error emsg := by
  have h2 : ¬ buffer.length < 2 := by
    intro h
    unfold declaredLength at hdecl
    rw [if_pos h] at hdecl
    exact absurd hdecl (by simp)
  unfold declaredLength at hdecl
  rw [if_neg h2] at hdecl
  have h2t : ¬ (buffer.take 10).length < 2 := by rw [List.length_take]; omega
  have hg1 : (buffer.take 10).getD 1 0 = buffer.getD 1 0 := getD_take _ _ _ _ (by omega)
  have hr16 : readU16BE (buffer.take 10) 2 = readU16BE buffer 2 := by
    unfold readU16BE
    rw [getD_take _ _ _ _ (by omega), getD_take _ _ _ _ (by omega)]
  have hr32a : readU32BE (buffer.take 10) 2 = readU32BE buffer 2 := by
    unfold readU32BE
    rw [getD_take _ _ _ _ (by omega), getD_take _ _ _ _ (by omega),
      getD_take _ _ _ _ (by omega), getD_take _ _ _ _ (by omega)]
  have hr32b : readU32BE (buffer.take 10) 6 = readU32BE buffer 6 := by
    unfold readU32BE
    rw [getD_take _ _ _ _ (by omega), getD_take _ _ _ _ (by omega),
      getD_take _ _ _ _ (by omega), getD_take _ _ _ _ (by omega)]
  by_cases h126 : buffer.getD 1 0 &&& 0x7f = 126
  · rw [if_pos h126] at hdecl
    by_cases h4 : buffer.length < 4
    · rw [if_pos h4] at hdecl
      exact absurd hdecl (by simp)
    · rw [if_neg h4] at hdecl
      have hlen : readU16BE buffer 2 = len := by simpa using hdecl
      have hbig : M < readU16BE buffer 2 := by
        rcases hover with h | ⟨h127, _⟩
        · omega
        · rw [h126] at h127
          exact absurd h127 (by decide)
      refine ⟨oversizeMsg (readU16BE buffer 2) M,
        decodeFrame_error_ext16 M buffer h2 h126 h4 hbig, ?_⟩
      have ht := decodeFrame_error_ext16 M (buffer.take 10) h2t
        (by rw [hg1]; exact h126) (by rw [List.length_take]; omega)
        (by rw [hr16]; exact hbig)
      rw [ht, hr16]
  · by_cases h127 : buffer.getD 1 0 &&& 0x7f = 127
    · rw [if_neg (by rw [h127]; decide), if_pos h127] at hdecl
      by_cases h10 : buffer.length < 10
      · rw [if_pos h10] at hdecl
        exact absurd hdecl (by simp)
      · rw [if_neg h10] at hdecl
        have hlen : readU32BE buffer 2 * 4294967296 + readU32BE buffer 6 = len := by
          simpa using hdecl
        by_cases hh : 0 < readU32BE buffer 2
        · refine ⟨frameTooLargeMsg,
            decodeFrame_error_highbits M buffer h2 h127 h10 hh, ?_⟩
          exact decodeFrame_error_highbits M (buffer.take 10) h2t
            (by rw [hg1]; exact h127) (by rw [List.length_take]; omega)
            (by rw [hr32a]; exact hh)
        · have hzero : readU32BE buffer 2 = 0 := by omega
          have hbig : M < readU32BE buffer 6 := by
            rcases hover with h | ⟨_, hpos⟩
            · omega
            · omega
          refine ⟨oversizeMsg (readU32BE buffer 6) M,
            decodeFrame_error_ext64 M buffer h2 h127 h10 hzero hbig, ?_⟩
          have ht := decodeFrame_error_ext64 M (buffer.take 10) h2t
            (by rw [hg1]; exact h127) (by rw [List.length_take]; omega)
            (by rw [hr32a]; exact hzero) (by rw [hr32b]; exact hbig)
          rw [ht, hr32b]
    · rw [if_neg h126, if_neg h127] at hdecl
      have hlen : buffer.getD 1 0 &&& 0x7f = len := by simpa using hdecl
      have hbig : M < buffer.getD 1 0 &&& 0x7f := by
        rcases hover with h | ⟨h₁, _⟩
        · omega
        · exact absurd h₁ h127
      refine ⟨oversizeMsg (buffer.getD 1 0 &&& 0x7f) M,
        decodeFrame_error_small M buffer h2 h126 h127 hbig, ?_⟩
      have ht := decodeFrame_error_small M (buffer.take 10) h2t
        (by rw [hg1]; exact h126) (by rw [hg1]; exact h127) (by rw [hg1]; exact hbig)
      rw [ht, hg1]

/-- Witness for C3: a frame header declaring a 2000-byte payload against a
1000-byte maximum is rejected with an error from the header alone. -/
theorem oversized_frame_rejected_witness :
    ∃ emsg, decodeFrame 1000 [0x81, 126, 7, 208] = .error emsg ∧
      decodeFrame 1000 ([0x81, 126, 7, 208].take 10) = .error emsg :=
  oversized_frame_rejected 1000 [0x81, 126, 7, 208] 2000 rfl (Or.inl (by decide))

/-! ## Claim C9 — frame encoding -/

theorem or128_and_128 (opcode : Nat) (hop : opcode < 16) :
    (0x80 ||| opcode) &&& 0x80 = 0x80 := by
  interval_cases opcode <;> decide

theorem or128_and_15 (opcode : Nat) (hop : opcode < 16) :
    (0x80 ||| opcode) &&& 0x0f = opcode := by
  interval_cases opcode <;> decide

theorem small_and_128 (n : Nat) (h : n < 128) : n &&& 128 = 0 := by
  rw [show (128 : Nat) = 2 ^ 7 from rfl, Nat.and_two_pow]
  have hb : n.testBit 7 = false := Nat.testBit_lt_two_pow (by omega)
  simp [hb]

theorem buildFrame_encoding (opcode : Nat) (payload : List Nat)
    (hop : opcode < 16) (hlen : payload.length < 4294967296) :
    ((buildFrame opcode payload).getD 0 0 &&& 0x80 = 0x80) ∧
    ((buildFrame opcode payload).getD 0 0 &&& 0x0f = opcode) ∧
    ((buildFrame opcode payload).getD 1 0 &&& 0x80 = 0) ∧
    (payload.length ≤ 125 →
      buildFrame opcode payload = (0x80 ||| opcode) :: payload.length :: payload) ∧
    (126 ≤ payload.length → payload.length ≤ 65535 →
      (buildFrame opcode payload).getD 1 0 = 126 ∧
      readU16BE (buildFrame opcode payload) 2 = payload.length) ∧
    (65535 < payload.length →
      (buildFrame opcode payload).getD 1 0 = 127 ∧
      readU32BE (buildFrame opcode payload) 2 = 0 ∧
      readU32BE (buildFrame opcode payload) 6 = payload.length) ∧
    ((buildFrame opcode payload).length =
      (if 65535 < payload.length then 10 else if 125 < payload.length then 4 else 2) +
        payload.length) := by
  by_cases h64 : 65535 < payload.length
  · have hb : buildFrame opcode payload =
        (0x80 ||| opcode) :: 127 :: (u32Bytes 0 ++ u32Bytes payload.length ++ payload) := by
      unfold buildFrame
      rw [if_pos h64]
    refine ⟨?_, ?_, ?_, ?_, ?_, ?_, ?_⟩
    · rw [hb]; exact or128_and_128 opcode hop
    · rw [hb]; exact or128_and_15 opcode hop
    · rw [hb]
      show (127 : Nat) &&& 0x80 = 0
      decide
    · intro h; omega
    · intro h₁ h₂; omega
    · intro _
      refine ⟨by rw [hb]; rfl, ?_, ?_⟩
      · rw [hb]; simp [readU32BE, u32Bytes, List.getD]
      · rw [hb]; simp [readU32BE, u32Bytes, List.getD]; omega
    · rw [hb]; simp [u32Bytes, h64]; omega
  · by_cases h16 : 125 < payload.length
    · have hb : buildFrame opcode payload =
          (0x80 ||| opcode) :: 126 :: (u16Bytes payload.length ++ payload) := by
        unfold buildFrame
        rw [if_neg h64, if_pos h16]
      refine ⟨?_, ?_, ?_, ?_, ?_, ?_, ?_⟩
      · rw [hb]; exact or128_and_128 opcode hop
      · rw [hb]; exact or128_and_15 opcode hop
      · rw [hb]
        show (126 : Nat) &&& 0x80 = 0
        decide
      · intro h; omega
      · intro h₁ h₂
        refine ⟨by rw [hb]; rfl, ?_⟩
        rw [hb]; simp [readU16BE, u16Bytes, List.getD]; omega
      · intro h; omega
      · rw [hb]; simp [u16Bytes, h64, h16]; omega
    · have hb : buildFrame opcode payload =
          (0x80 ||| opcode) :: payload.length :: payload := by
        unfold buildFrame
        rw [if_neg h64, if_neg h16]
      refine ⟨?_, ?_, ?_, ?_, ?_, ?_, ?_⟩
      · rw [hb]; exact or128_and_128 opcode hop
      · rw [hb]; exact or128_and_15 opcode hop
      · rw [hb]
        show payload.length &&& 0x80 = 0
        exact small_and_128 _ (by omega)
      · intro _; exact hb
      · intro h₁ _; omega
      · intro h; omega
      · rw [hb]; simp [h64, h16]; omega

/-- Witness for C9: the encoder on a 2-byte payload yields the exact
4-byte frame with FIN set, TEXT opcode, and a 1-byte length. -/
theorem buildFrame_encoding_witness :
    buildFrame 1 [104, 105] = (0x80 ||| 1) :: 2 :: [104, 105] :=
  (buildFrame_encoding 1 [104, 105] (by decide) (by decide)).2.2.2.1 (by decide)

/-! ## Claim C8 — buffer append and compact -/

theorem take_of_length_eq (p l : List Nat) (n : Nat) (h : p.length = n) :
    (p ++ l).take n = p := by
  rw [← h, List.take_left]

theorem appendToBuffer_facts (m : ManagedBuffer) (data : List Nat)
    (hinv : m.bufferLength ≤ m.buffer.length) :
    (appendToBuffer m data).bufferLength = m.bufferLength + data.length ∧
    (appendToBuffer m data).buffer.take m.bufferLength = m.buffer.take m.bufferLength ∧
    (appendToBuffer m data).buffer.take (m.bufferLength + data.length)
      = m.buffer.take m.bufferLength ++ data ∧
    (appendToBuffer m data).buffer.length =
      (if m.buffer.length < m.bufferLength + data.length
        then max (m.buffer.length * 2) (m.bufferLength + data.length)
        else m.buffer.length) ∧
    m.bufferLength + data.length ≤ (appendToBuffer m data).buffer.length := by
  set L := m.bufferLength with hLdef
  set C := m.buffer.length with hCdef
  set D := data.length with hDdef
  set N := L + D with hNdef
  set buf := if C < N then
      m.buffer.take L ++ List.replicate (max (C * 2) N - L) 0
    else m.buffer with hbufdef
  have hbufLen : buf.length = if C < N then max (C * 2) N else C := by
    rw [hbufdef]
    by_cases h : C < N
    · rw [if_pos h, if_pos h]
      simp only [List.length_append, List.length_take, List.length_replicate]
      omega
    · rw [if_neg h, if_neg h]
  have hNle : N ≤ buf.length := by
    rw [hbufLen]
    by_cases h : C < N
    · rw [if_pos h]
      omega
    · rw [if_neg h]
      omega
  have hbufTake : buf.take L = m.buffer.take L := by
    rw [hbufdef]
    by_cases h : C < N
    · rw [if_pos h, List.take_append_eq_append_take, List.take_take]
      have h₁ : min L L = L := by omega
      have h₂ : L - (m.buffer.take L).length = 0 := by
        rw [List.length_take]; omega
      rw [h₁, h₂]
      simp
    · rw [if_neg h]
  have hbuf : (appendToBuffer m data).buffer = buf.take L ++ (data ++ buf.drop N) := by
    simp only [appendToBuffer]
    rw [← hbufdef, ← hLdef, ← hNdef]
    simp [List.append_assoc]
  have hblen : (appendToBuffer m data).bufferLength = N := by
    simp only [appendToBuffer]
  have hPlen : (buf.take L).length = L := by
    rw [List.length_take]; omega
  refine ⟨hblen, ?_, ?_, ?_, ?_⟩
  · rw [hbuf, take_of_length_eq _ _ _ hPlen, hbufTake]
  · rw [hbuf, List.take_append_eq_append_take, hPlen,
      List.take_of_length_le (by omega : (buf.take L).length ≤ N), hbufTake,
      List.take_append_eq_append_take,
      List.take_of_length_le (by omega : data.length ≤ N - L)]
    have h₀ : N - L - D = 0 := by omega
    rw [h₀]
    simp
  · rw [hbuf, ← hbufLen]
    simp only [List.length_append, List.length_take, List.length_drop]
    omega
  · rw [hbuf]
    simp only [List.length_append, List.length_take, List.length_drop]
    omega

theorem compactBuffer_facts (a : ManagedBuffer) (k : Nat)
    (hinv : a.bufferLength ≤ a.buffer.length) :
    (k ≤ a.bufferLength →
      (compactBuffer a k).bufferLength = a.bufferLength - k ∧
      (compactBuffer a k).buffer.take (a.bufferLength - k)
        = (a.buffer.take a.bufferLength).drop k) ∧
    (a.bufferLength ≤ k → compactBuffer a k = { a with bufferLength := 0 }) := by
  constructor
  · intro hk
    by_cases hk₂ : a.bufferLength ≤ k
    · unfold compactBuffer
      rw [if_pos hk₂]
      refine ⟨by simp; omega, ?_⟩
      have h₀ : a.bufferLength - k = 0 := by omega
      rw [h₀, List.take_zero]
      have hge : (a.buffer.take a.bufferLength).length ≤ k := by
        rw [List.length_take]; omega
      rw [List.drop_eq_nil_of_le hge]
    · unfold compactBuffer
      rw [if_neg hk₂]
      refine ⟨rfl, ?_⟩
      have hPlen : ((a.buffer.drop k).take (a.bufferLength - k)).length
          = a.bufferLength - k := by
        rw [List.length_take, List.length_drop]; omega
      rw [take_of_length_eq _ _ _ hPlen, List.drop_take]
  · intro hk
    unfold compactBuffer
    rw [if_pos hk]

/-- C8: `append` followed by `compact(k)` with `k ≤ validLength` leaves the
first `validLength − k` bytes equal to the pre-compact valid bytes from
offset `k`; `compact` with `k ≥ validLength` resets the cursor without
touching the allocation; and `append` preserves the existing valid prefix,
growing the capacity to `max(2 × capacity, validLength + len(data))`
exactly when the data would not fit. -/
theorem buffer_append_compact_spec (m : ManagedBuffer) (data : List Nat) (k : Nat)
    (hinv : m.bufferLength ≤ m.buffer.length) :
    (appendToBuffer m data).bufferLength = m.bufferLength + data.length ∧
    (appendToBuffer m data).buffer.take m.bufferLength = m.buffer.take m.bufferLength ∧
    (appendToBuffer m data).buffer.length =
      (if m.buffer.length < m.bufferLength + data.length
        then max (m.buffer.length * 2) (m.bufferLength + data.length)
        else m.buffer.length) ∧
    (k ≤ (appendToBuffer m data).bufferLength →
      (compactBuffer (appendToBuffer m data) k).bufferLength
        = (appendToBuffer m data).bufferLength - k ∧
      (compactBuffer (appendToBuffer m data) k).buffer.take
          ((appendToBuffer m data).bufferLength - k)
        = (m.buffer.take m.bufferLength ++ data).drop k) ∧
    ((appendToBuffer m data).bufferLength ≤ k →
      compactBuffer (appendToBuffer m data) k
        = { appendToBuffer m data with bufferLength := 0 }) := by
  obtain ⟨h1, h2, h3, h4, h5⟩ := appendToBuffer_facts m data hinv
  obtain ⟨hc1, hc2⟩ := compactBuffer_facts (appendToBuffer m data) k (by rw [h1]; exact h5)
  refine ⟨h1, h2, h4, ?_, hc2⟩
  intro hk
  obtain ⟨hca, hcb⟩ := hc1 hk
  refine ⟨hca, ?_⟩
  rw [hcb, h1, h3]

/-- Witness for C8: appending eleven bytes to an empty 4-byte buffer and
compacting six leaves the five remaining bytes, with the capacity grown to
eleven. -/
theorem buffer_append_compact_spec_witness :
    (compactBuffer (appendToBuffer ⟨[0, 0, 0, 0], 0⟩
        [1, 2, 3, 4, 5, 6, 7, 8, 9, 10, 11]) 6).buffer.take
      ((appendToBuffer ⟨[0, 0, 0, 0], 0⟩
        [1, 2, 3, 4, 5, 6, 7, 8, 9, 10, 11]).bufferLength - 6)
      = (List.take 0 [0, 0, 0, 0] ++ [1, 2, 3, 4, 5, 6, 7, 8, 9, 10, 11]).drop 6 :=
  ((buffer_append_compact_spec ⟨[0, 0, 0, 0], 0⟩
    [1, 2, 3, 4, 5, 6, 7, 8, 9, 10, 11] 6 (by decide)).2.2.2.1 (by decide)).2

/-! ## Claim C4 — `__PLAYER_LEFT__` then `__PLAYER_RECONNECTED__` -/

theorem createGameReducer_left_eq (r : JValue → JValue → JValue) (state : JValue)
    (pid : String) :
    createGameReducer r state (playerLeftAction pid) =
      (if jtruthy (jget (jget state "players") pid) = false then state
       else .obj (setKey "players"
        (.obj (setKey pid (.obj (setKey "connected" (.bool false)
          (spreadFields (jget (jget state "players") pid))))
          (spreadFields (jget state "players"))))
        (spreadFields state))) := rfl

theorem createGameReducer_reconnected_eq (r : JValue → JValue → JValue) (state : JValue)
    (pid : String) :
    createGameReducer r state (playerReconnectedAction pid) =
      (if jtruthy (jget (jget state "players") pid) = false then state
       else .obj (setKey "players"
        (.obj (setKey pid (.obj (setKey "connected" (.bool true)
          (spreadFields (jget (jget state "players") pid))))
          (spreadFields (jget state "players"))))
        (spreadFields state))) := rfl

theorem player_left_reconnect_roundtrip (r : JValue → JValue → JValue)
    (state : JValue) (pid : String) :
    (∀ pfields pf, jget state "players" = .obj pfields →
      lookupKey pid pfields = some (.obj pf) →
      ∃ pfields₂ pf₂,
        jget (createGameReducer r (createGameReducer r state (playerLeftAction pid))
          (playerReconnectedAction pid)) "players" = .obj pfields₂ ∧
        lookupKey pid pfields₂ = some (.obj pf₂) ∧
        lookupKey "connected" pf₂ = some (.bool true) ∧
        (∀ k, k ≠ "connected" → lookupKey k pf₂ = lookupKey k pf) ∧
        (lookupKey "connected" pf = some (.bool true) → pf₂ = pf)) ∧
    (jtruthy (jget (jget state "players") pid) = false →
      createGameReducer r state (playerLeftAction pid) = state ∧
      createGameReducer r state (playerReconnectedAction pid) = state) := by
  constructor
  · intro pfields pf hp hlook
    have hplayer : jget (jget state "players") pid = .obj pf := by
      rw [hp]
      exact jget_of_lookupKey _ _ _ hlook
    have hs1 : createGameReducer r state (playerLeftAction pid) =
        .obj (setKey "players"
          (.obj (setKey pid (.obj (setKey "connected" (.bool false) pf)) pfields))
          (spreadFields state)) := by
      rw [createGameReducer_left_eq, if_neg (by simp [hplayer, jtruthy]), hplayer, hp]
      rfl
    have hs1p : jget (createGameReducer r state (playerLeftAction pid)) "players" =
        .obj (setKey pid (.obj (setKey "connected" (.bool false) pf)) pfields) := by
      rw [hs1]
      apply jget_of_lookupKey
      rw [lookupKey_setKey]
      simp
    have hs1player : jget (jget (createGameReducer r state (playerLeftAction pid))
        "players") pid = .obj (setKey "connected" (.bool false) pf) := by
      rw [hs1p]
      apply jget_of_lookupKey
      rw [lookupKey_setKey]
      simp
    have hs2 : createGameReducer r (createGameReducer r state (playerLeftAction pid))
        (playerReconnectedAction pid) =
        .obj (setKey "players"
          (.obj (setKey pid (.obj (setKey "connected" (.bool true) pf)) pfields))
          (spreadFields (createGameReducer r state (playerLeftAction pid)))) := by
      rw [createGameReducer_reconnected_eq, if_neg (by simp [hs1player, jtruthy]),
        hs1player, hs1p]
      show JValue.obj (setKey "players"
          (.obj (setKey pid (.obj (setKey "connected" (.bool true)
              (setKey "connected" (.bool false) pf)))
            (setKey pid (.obj (setKey "connected" (.bool false) pf)) pfields)))
          (spreadFields (createGameReducer r state (playerLeftAction pid)))) = _
      rw [setKey_setKey, setKey_setKey]
    refine ⟨setKey pid (.obj (setKey "connected" (.bool true) pf)) pfields,
      setKey "connected" (.bool true) pf, ?_, ?_, ?_, ?_, ?_⟩
    · rw [hs2]
      apply jget_of_lookupKey
      rw [lookupKey_setKey]
      simp
    · rw [lookupKey_setKey]
      simp
    · rw [lookupKey_setKey]
      simp
    · intro k hk
      rw [lookupKey_setKey, if_neg (Ne.symm hk)]
    · intro hconn
      exact setKey_eq_of_lookupKey _ _ _ hconn
  · intro hfalse
    exact ⟨by rw [createGameReducer_left_eq, if_pos hfalse],
      by rw [createGameReducer_reconnected_eq, if_pos hfalse]⟩

/-- Witness for C4: the round trip on a concrete one-player state restores
the record, and both actions are no-ops for an absent player id. -/
theorem player_left_reconnect_roundtrip_witness :
    (∃ pfields₂ pf₂,
      jget (createGameReducer (fun s _ => s)
        (createGameReducer (fun s _ => s)
          (.obj [("status", .str "lobby"), ("players", .obj [("p1",
            .obj [("id", .str "p1"), ("name", .str "A"), ("isHost", .bool false),
              ("connected", .bool true)])])])
          (playerLeftAction "p1")) (playerReconnectedAction "p1")) "players"
        = .obj pfields₂ ∧
      lookupKey "p1" pfields₂ = some (.obj pf₂) ∧
      lookupKey "connected" pf₂ = some (.bool true) ∧
      (∀ k, k ≠ "connected" → lookupKey k pf₂ =
        lookupKey k [("id", JValue.str "p1"), ("name", .str "A"),
          ("isHost", .bool false), ("connected", .bool true)]) ∧
      (lookupKey "connected" [("id", JValue.str "p1"), ("name", .str "A"),
          ("isHost", .bool false), ("connected", .bool true)] = some (.bool true) →
        pf₂ = [("id", JValue.str "p1"), ("name", .str "A"),
          ("isHost", .bool false), ("connected", .bool true)])) ∧
    (createGameReducer (fun s _ => s)
        (.obj [("status", .str "lobby"), ("players", .obj [])])
        (playerLeftAction "zz")
      = .obj [("status", .str "lobby"), ("players", .obj [])] ∧
     createGameReducer (fun s _ => s)
        (.obj [("status", .str "lobby"), ("players", .obj [])])
        (playerReconnectedAction "zz")
      = .obj [("status", .str "lobby"), ("players", .obj [])]) :=
  ⟨(player_left_reconnect_roundtrip (fun s _ => s)
      (.obj [("status", .str "lobby"), ("players", .obj [("p1",
        .obj [("id", .str "p1"), ("name", .str "A"), ("isHost", .bool false),
          ("connected", .bool true)])])]) "p1").1
      [("p1", .obj [("id", .str "p1"), ("name", .str "A"), ("isHost", .bool false),
        ("connected", .bool true)])]
      [("id", .str "p1"), ("name", .str "A"), ("isHost", .bool false),
        ("connected", .bool true)] rfl rfl,
   (player_left_reconnect_roundtrip (fun s _ => s)
      (.obj [("status", .str "lobby"), ("players", .obj [])]) "zz").2 rfl⟩

/-! ## Claim C7 — no `secret` field reaches the broadcast state -/

theorem noSecret_obj (l : List (String × JValue)) : noSecret (.obj l) = noSecretFields l := by
  simp [noSecret]

theorem noSecretFields_cons (k : String) (v : JValue) (rest : List (String × JValue)) :
    noSecretFields ((k, v) :: rest)
      = (decide (k ≠ "secret") && noSecret v && noSecretFields rest) := by
  simp [noSecretFields]

theorem noSecretFields_lookup (l : List (String × JValue)) (k : String) (v : JValue)
    (hl : noSecretFields l = true) (hk : lookupKey k l = some v) :
    noSecret v = true ∧ k ≠ "secret" := by
  induction l with
  | nil => simp [lookupKey] at hk
  | cons hd tl ih =>
    obtain ⟨k₁, v₁⟩ := hd
    rw [noSecretFields_cons] at hl
    simp only [Bool.and_eq_true, decide_eq_true_eq] at hl
    obtain ⟨⟨hk₁, hv₁⟩, htl⟩ := hl
    by_cases h : k₁ = k
    · subst h
      simp [lookupKey] at hk
      subst hk
      exact ⟨hv₁, hk₁⟩
    · simp [lookupKey, h] at hk
      exact ih htl hk

theorem noSecret_jget (v : JValue) (k : String) (hv : noSecret v = true) :
    noSecret (jget v k) = true := by
  match v with
  | .jsUndefined | .null | .bool _ | .num _ | .str _ | .arr _ => simp [jget, noSecret]
  | .obj fields =>
    rw [noSecret_obj] at hv
    cases hl : lookupKey k fields with
    | none => simp [jget, hl, noSecret]
    | some w =>
      have := (noSecretFields_lookup fields k w hv hl).1
      simpa [jget, hl] using this

theorem noSecretFields_spreadFields (v : JValue) (hv : noSecret v = true) :
    noSecretFields (spreadFields v) = true := by
  match v with
  | .jsUndefined | .null | .bool _ | .num _ | .str _ | .arr _ => simp [spreadFields, noSecretFields]
  | .obj fields => rw [← noSecret_obj]; exact hv

theorem noSecretFields_setKey (l : List (String × JValue)) (k : String) (v : JValue)
    (hk : k ≠ "secret") (hv : noSecret v = true) (hl : noSecretFields l = true) :
    noSecretFields (setKey k v l) = true := by
  induction l with
  | nil => simp [setKey, noSecretFields_cons, noSecretFields, hk, hv]
  | cons hd tl ih =>
    obtain ⟨k₁, v₁⟩ := hd
    rw [noSecretFields_cons] at hl
    simp only [Bool.and_eq_true, decide_eq_true_eq] at hl
    obtain ⟨⟨hk₁, hv₁⟩, htl⟩ := hl
    by_cases h : k₁ = k
    · subst h
      simp [setKey, noSecretFields_cons, hk, hv, htl]
    · simp only [setKey, h, if_false]
      rw [noSecretFields_cons]
      simp [hk₁, hv₁, ih htl]

theorem noSecretFields_removeKey (l : List (String × JValue)) (k : String)
    (hl : noSecretFields l = true) :
    noSecretFields (removeKey k l) = true := by
  induction l with
  | nil => simp [removeKey, noSecretFields]
  | cons hd tl ih =>
    obtain ⟨k₁, v₁⟩ := hd
    rw [noSecretFields_cons] at hl
    simp only [Bool.and_eq_true, decide_eq_true_eq] at hl
    obtain ⟨⟨hk₁, hv₁⟩, htl⟩ := hl
    by_cases h : k₁ = k
    · simp [removeKey, h, ih htl]
    · simp only [removeKey, h, if_false]
      rw [noSecretFields_cons]
      simp [hk₁, hv₁, ih htl]

theorem jtruthy_jget_obj (v : JValue) (k : String)
    (h : jtruthy (jget v k) = true) :
    ∃ fields player, v = .obj fields ∧ lookupKey k fields = some player ∧
      jtruthy player = true := by
  match v with
  | .jsUndefined | .null | .bool _ | .num _ | .str _ | .arr _ => simp [jget, jtruthy] at h
  | .obj fields =>
    cases hl : lookupKey k fields with
    | none => simp [jget, hl, jtruthy] at h
    | some w =>
      refine ⟨fields, w, rfl, hl, ?_⟩
      simpa [jget, hl] using h

theorem createGameReducer_hydrate (r : JValue → JValue → JValue) (state action : JValue)
    (ht : jget action "type" = .str "__HYDRATE__") :
    createGameReducer r state action = jget action "payload" := by
  unfold createGameReducer
  rw [ht]
  rfl

theorem createGameReducer_joined (r : JValue → JValue → JValue) (state action : JValue)
    (ht : jget action "type" = .str "__PLAYER_JOINED__") :
    createGameReducer r state action =
      .obj (setKey "players"
        (.obj (setKey (jToKey (jget (jget action "payload") "id"))
          (.obj [("id", jget (jget action "payload") "id"),
            ("name", jget (jget action "payload") "name"),
            ("avatar", jget (jget action "payload") "avatar"),
            ("isHost", .bool false), ("connected", .bool true)])
          (spreadFields (jget state "players"))))
        (spreadFields state)) := by
  unfold createGameReducer
  rw [ht]
  rfl

theorem createGameReducer_left_any (r : JValue → JValue → JValue) (state action : JValue)
    (ht : jget action "type" = .str "__PLAYER_LEFT__") :
    createGameReducer r state action =
      (if jtruthy (jget (jget state "players")
          (jToKey (jget (jget action "payload") "playerId"))) = false then state
       else .obj (setKey "players"
        (.obj (setKey (jToKey (jget (jget action "payload") "playerId"))
          (.obj (setKey "connected" (.bool false)
            (spreadFields (jget (jget state "players")
              (jToKey (jget (jget action "payload") "playerId"))))))
          (spreadFields (jget state "players"))))
        (spreadFields state))) := by
  unfold createGameReducer
  rw [ht]
  rfl

theorem createGameReducer_reconnected_any (r : JValue → JValue → JValue)
    (state action : JValue)
    (ht : jget action "type" = .str "__PLAYER_RECONNECTED__") :
    createGameReducer r state action =
      (if jtruthy (jget (jget state "players")
          (jToKey (jget (jget action "payload") "playerId"))) = false then state
       else .obj (setKey "players"
        (.obj (setKey (jToKey (jget (jget action "payload") "playerId"))
          (.obj (setKey "connected" (.bool true)
            (spreadFields (jget (jget state "players")
              (jToKey (jget (jget action "payload") "playerId"))))))
          (spreadFields (jget state "players"))))
        (spreadFields state))) := by
  unfold createGameReducer
  rw [ht]
  rfl

theorem createGameReducer_removed (r : JValue → JValue → JValue) (state action : JValue)
    (ht : jget action "type" = .str "__PLAYER_REMOVED__") :
    createGameReducer r state action =
      (if jtruthy (jget (jget state "players")
          (jToKey (jget (jget action "payload") "playerId"))) = false then state
       else .obj (setKey "players"
        (.obj (removeKey (jToKey (jget (jget action "payload") "playerId"))
          (spreadFields (jget state "players"))))
        (spreadFields state))) := by
  unfold createGameReducer
  rw [ht]
  rfl

theorem reserved_action_preserves_noSecret (r : JValue → JValue → JValue)
    (state action : JValue) (t : String)
    (ht : jget action "type" = .str t) (hres : t ∈ reservedActionTypes)
    (hstate : noSecret state = true)
    (hpayload : noSecret (jget action "payload") = true)
    (hid : jToKey (jget (jget action "payload") "id") ≠ "secret") :
    noSecret (createGameReducer r state action) = true := by
  have hps : noSecretFields (spreadFields state) = true :=
    noSecretFields_spreadFields state hstate
  have hpl : noSecret (jget state "players") = true := noSecret_jget state "players" hstate
  have hplf : noSecretFields (spreadFields (jget state "players")) = true :=
    noSecretFields_spreadFields _ hpl
  simp only [reservedActionTypes, List.mem_cons, List.mem_singleton] at hres
  have hupd : ∀ (key : String) (inner : JValue), key ≠ "secret" → noSecret inner = true →
      noSecret (.obj (setKey "players"
        (.obj (setKey key inner (spreadFields (jget state "players"))))
        (spreadFields state))) = true := by
    intro key inner hkey hinner
    rw [noSecret_obj]
    apply noSecretFields_setKey _ _ _ (by decide) _ hps
    rw [noSecret_obj]
    exact noSecretFields_setKey _ _ _ hkey hinner hplf
  have hmem : ∀ (key : String), jtruthy (jget (jget state "players") key) = true →
      noSecret (jget (jget state "players") key) = true ∧ key ≠ "secret" := by
    intro key htr
    obtain ⟨fields, player, hobj, hlook, hptr⟩ := jtruthy_jget_obj _ _ htr
    have hfields : noSecretFields fields = true := by
      rw [← noSecret_obj, ← hobj]
      exact hpl
    obtain ⟨hplayer, hkne⟩ := noSecretFields_lookup _ _ _ hfields hlook
    constructor
    · rw [hobj, jget_of_lookupKey _ _ _ hlook]
      exact hplayer
    · exact hkne
  have hbooltrue : ∀ (x : Bool), ¬ x = false → x = true := by
    intro x hx
    cases x
    · exact absurd rfl hx
    · rfl
  rcases hres with h | h | h | h | h | h
  · rw [createGameReducer_hydrate r state action (h ▸ ht)]
    exact hpayload
  · rw [createGameReducer_joined r state action (h ▸ ht)]
    apply hupd _ _ hid
    rw [noSecret_obj]
    simp [noSecretFields_cons, noSecretFields, noSecret, noSecret_jget _ _ hpayload]
  · rw [createGameReducer_left_any r state action (h ▸ ht)]
    by_cases htr : jtruthy (jget (jget state "players")
        (jToKey (jget (jget action "payload") "playerId"))) = false
    · rw [if_pos htr]
      exact hstate
    · rw [if_neg htr]
      obtain ⟨hplayer, hkne⟩ := hmem _ (hbooltrue _ htr)
      apply hupd _ _ hkne
      rw [noSecret_obj]
      apply noSecretFields_setKey _ _ _ (by decide) (by simp [noSecret])
      exact noSecretFields_spreadFields _ hplayer
  · rw [createGameReducer_reconnected_any r state action (h ▸ ht)]
    by_cases htr : jtruthy (jget (jget state "players")
        (jToKey (jget (jget action "payload") "playerId"))) = false
    · rw [if_pos htr]
      exact hstate
    · rw [if_neg htr]
      obtain ⟨hplayer, hkne⟩ := hmem _ (hbooltrue _ htr)
      apply hupd _ _ hkne
      rw [noSecret_obj]
      apply noSecretFields_setKey _ _ _ (by decide) (by simp [noSecret])
      exact noSecretFields_spreadFields _ hplayer
  · rw [createGameReducer_removed r state action (h ▸ ht)]
    by_cases htr : jtruthy (jget (jget state "players")
        (jToKey (jget (jget action "payload") "playerId"))) = false
    · rw [if_pos htr]
      exact hstate
    · rw [if_neg htr]
      rw [noSecret_obj]
      apply noSecretFields_setKey _ _ _ (by decide) _ hps
      rw [noSecret_obj]
      exact noSecretFields_removeKey _ _ hplf
  · simp at h

theorem isValidSecret_ne_empty (s : String) (h : isValidSecret s = true) : s ≠ "" := by
  intro he
  subst he
  exact absurd h (by decide)

theorem join_dispatch_strips_secret (state : JValue)
    (sessions reverseMap : List (String × String)) (cleanupTimers : List String)
    (pendingWelcome : List (String × String)) (socketId : String) (now : Int)
    (msg : JValue) (s : String)
    (hvalid : isValidClientMessage msg = true)
    (htype : jget msg "type" = .str "JOIN")
    (hsec : jget (jget msg "payload") "secret" = .str s)
    (hval : isValidSecret s = true) :
    ∀ act ∈ (handleMessage state sessions reverseMap cleanupTimers pendingWelcome
        socketId now msg).dispatched,
      lookupKey "secret" (spreadFields (jget act "payload")) = none := by
  have hne : s ≠ "" := isValidSecret_ne_empty s hval
  have hdisp : (handleMessage state sessions reverseMap cleanupTimers pendingWelcome
      socketId now msg).dispatched =
      [if jtruthy (jget (jget state "players") (derivePlayerId s)) = true then
        playerReconnectedAction (derivePlayerId s)
      else playerJoinedAction (derivePlayerId s)
        (removeKey "secret" (spreadFields (jget msg "payload")))] := by
    unfold handleMessage
    rw [hvalid, htype]
    simp [hsec, jtruthy, hne, hval]
  intro act hact
  rw [hdisp] at hact
  simp only [List.mem_singleton] at hact
  subst hact
  by_cases hexist : jtruthy (jget (jget state "players") (derivePlayerId s)) = true
  · rw [if_pos hexist]
    rfl
  · rw [if_neg hexist]
    unfold playerJoinedAction
    have hj : jget (.obj [("type", JValue.str "__PLAYER_JOINED__"),
        ("payload", .obj (spreadInto [("id", .str (derivePlayerId s))]
          (removeKey "secret" (spreadFields (jget msg "payload")))))]) "payload"
        = .obj (spreadInto [("id", .str (derivePlayerId s))]
          (removeKey "secret" (spreadFields (jget msg "payload")))) := rfl
    rw [hj]
    show lookupKey "secret" (spreadInto [("id", .str (derivePlayerId s))]
      (removeKey "secret" (spreadFields (jget msg "payload")))) = none
    rw [lookupKey_spreadInto _ _ _ (keys_removeKey_ne _ _)]
    simp [lookupKey]

/-- C7: no session secret reaches broadcast state — the JOIN handler strips
the `secret` field from the payload before dispatching `__PLAYER_JOINED__`
(every action a valid JOIN dispatches carries a payload without a `secret`
key), and no reserved-action branch of the wrapped reducer introduces a
`secret` field into any player record or anywhere else in the state: on a
secret-free state, a reserved action with a secret-free payload whose
insertion key is not the literal `secret` produces a secret-free state. -/
theorem broadcast_state_has_no_secret :
    (∀ (state : JValue) (sessions reverseMap : List (String × String))
      (cleanupTimers : List String) (pendingWelcome : List (String × String))
      (socketId : String) (now : Int) (msg : JValue) (s : String),
      isValidClientMessage msg = true →
      jget msg "type" = .str "JOIN" →
      jget (jget msg "payload") "secret" = .str s →
      isValidSecret s = true →
      ∀ act ∈ (handleMessage state sessions reverseMap cleanupTimers pendingWelcome
          socketId now msg).dispatched,
        lookupKey "secret" (spreadFields (jget act "payload")) = none) ∧
    (∀ (r : JValue → JValue → JValue) (state action : JValue) (t : String),
      jget action "type" = .str t → t ∈ reservedActionTypes →
      noSecret state = true → noSecret (jget action "payload") = true →
      jToKey (jget (jget action "payload") "id") ≠ "secret" →
      noSecret (createGameReducer r state action) = true) :=
  ⟨fun state sessions reverseMap cleanupTimers pendingWelcome socketId now msg s
      h1 h2 h3 h4 => join_dispatch_strips_secret state sessions reverseMap
        cleanupTimers pendingWelcome socketId now msg s h1 h2 h3 h4,
   fun r state action t h1 h2 h3 h4 h5 =>
     reserved_action_preserves_noSecret r state action t h1 h2 h3 h4 h5⟩

/-- Witness for C7: the action dispatched for a concrete valid JOIN carries
no `secret` key, and `__PLAYER_LEFT__` on a concrete secret-free state
yields a secret-free state. -/
theorem broadcast_state_has_no_secret_witness :
    lookupKey "secret" (spreadFields (jget (playerJoinedAction "aaaaaaaaaaaaaaaa"
      [("name", JValue.str "A")]) "payload")) = none ∧
    noSecret (createGameReducer (fun s _ => s)
      (.obj [("status", .str "lobby"), ("players", .obj [("p1",
        .obj [("id", .str "p1"), ("name", .str "A"), ("isHost", .bool false),
          ("connected", .bool true)])])])
      (playerLeftAction "p1")) = true :=
  ⟨broadcast_state_has_no_secret.1
      (.obj [("status", .str "lobby"), ("players", .obj [])]) [] [] [] [] "c1" 0
      (.obj [("type", .str "JOIN"), ("payload", .obj [("name", .str "A"),
        ("secret", .str "aaaaaaaaaaaaaaaaaaaaaaaaaaaaaaaa")])])
      "aaaaaaaaaaaaaaaaaaaaaaaaaaaaaaaa" rfl rfl rfl (by decide)
      (playerJoinedAction "aaaaaaaaaaaaaaaa" [("name", JValue.str "A")])
      (List.mem_singleton.mpr rfl),
   broadcast_state_has_no_secret.2 (fun s _ => s)
      (.obj [("status", .str "lobby"), ("players", .obj [("p1",
        .obj [("id", .str "p1"), ("name", .str "A"), ("isHost", .bool false),
          ("connected", .bool true)])])])
      (playerLeftAction "p1") "__PLAYER_LEFT__" rfl (by decide) (by decide)
      (by decide) (by decide)⟩

end CouchKit
